import Mathlib

/-!
Verification of the conntrack library core of the `rconntrack` repository.

The definitions below are a shallow embedding of the Rust sources under
`src/conntrack/src/`.  Machine integers (`u8`, `u16`, `u32`) are modelled as
`Nat` (no arithmetic in the embedded code can overflow: the operations used
are bit tests, bitwise or/and, and direct copies); the signed netlink error
code (`i32`) is modelled as `Int`.  Fallible Rust functions returning
`Result<T, E>` are modelled as `Except E T`; a reachable `unwrap` panic is
modelled as `Option`.

The source snapshot contains two views of the `Flow` record: `flow.rs`
(required `mark`/`use`, no event kind) and the view used by `request.rs`,
`event.rs` and `lib.rs` (optional `mark`/`use` plus an `event_type`).  Both
are embedded: the former under the root namespace, the latter under
`Engine`.
-/

set_option maxHeartbeats 1000000

namespace Conntrack

/-- An IP address: IPv4 or IPv6, the numeric value as `Nat`. -/
inductive IpAddr where
  | v4 (a : Nat)
  | v6 (a : Nat)
deriving DecidableEq, Repr

namespace IpAddr

/-- `IpAddr::is_ipv4`. -/
def isIpv4 : IpAddr → Bool
  | .v4 _ => true
  | .v6 _ => false

/-- `IpAddr::is_ipv6`. -/
def isIpv6 : IpAddr → Bool
  | .v4 _ => false
  | .v6 _ => true

end IpAddr

/-- A CIDR network (the `ipnet::IpNet` type used by the filter): a network
address together with a prefix length. -/
inductive IpNet where
  | v4 (addr : Nat) (maskLen : Nat)
  | v6 (addr : Nat) (maskLen : Nat)
deriving DecidableEq, Repr

namespace IpNet

/-- `IpNet::contains(&IpAddr)`: CIDR containment.  An address is contained
when it has the same family and agrees with the network address on the
`maskLen` leading bits of the address width (32 for IPv4, 128 for IPv6). -/
def contains : IpNet → IpAddr → Bool
  | .v4 net p, .v4 a => a >>> (32 - p) == net >>> (32 - p)
  | .v6 net p, .v6 a => a >>> (128 - p) == net >>> (128 - p)
  | _, _ => false

end IpNet

/-- `Family` (lib.rs): address family selector. -/
inductive Family where
  | unspec
  | ipv4
  | ipv6
deriving DecidableEq, Repr

namespace Family

/-- `Family::is_matched` (lib.rs). -/
def isMatched : Family → IpAddr → Bool
  | .unspec, _ => true
  | .ipv4, addr => addr.isIpv4
  | .ipv6, addr => addr.isIpv6

/-- `u8::from(Family)` (lib.rs): AF_INET = 2, AF_INET6 = 10, AF_UNSPEC = 0. -/
def toU8 : Family → Nat
  | .ipv4 => 2
  | .ipv6 => 10
  | .unspec => 0

end Family

/-- `Table` (lib.rs): conntrack table selector (`Expect` is unimplemented). -/
inductive Table where
  | conntrack
  | dying
  | unconfirmed
deriving DecidableEq, Repr

/-- `Protocol` (flow.rs): L4 protocol. -/
inductive Protocol where
  | tcp
  | udp
  | other (v : Nat)
deriving DecidableEq, Repr

namespace Protocol

/-- `From<u8> for Protocol` (flow.rs). -/
def fromU8 (v : Nat) : Protocol :=
  if v = 6 then .tcp
  else if v = 17 then .udp
  else .other v

/-- `From<Protocol> for u8` (flow.rs). -/
def toU8 : Protocol → Nat
  | .tcp => 6
  | .udp => 17
  | .other v => v

end Protocol

/-- `TcpState` (flow.rs): ten-valued TCP state enumeration. -/
inductive TcpState where
  | none
  | synSent
  | synRecv
  | established
  | finWait
  | closeWait
  | lastAck
  | timeWait
  | close
  | listen
deriving DecidableEq, Repr

/-- `FlowError` (flow.rs). -/
inductive FlowError where
  | invalidMessageType (v : Nat)
  | missingField (name : String)
  | invalidTcpState (s : String)
  | invalidL4Protocol (s : String)
  | invalidCtState (s : String)
  | netlink (s : String)
deriving DecidableEq, Repr

namespace TcpState

/-- `TryFrom<u8> for TcpState` (flow.rs). -/
def tryFromU8 (s : Nat) : Except FlowError TcpState :=
  match s with
  | 0 => .ok .none
  | 1 => .ok .synSent
  | 2 => .ok .synRecv
  | 3 => .ok .established
  | 4 => .ok .finWait
  | 5 => .ok .closeWait
  | 6 => .ok .lastAck
  | 7 => .ok .timeWait
  | 8 => .ok .close
  | 9 => .ok .listen
  | _ => .error (.invalidTcpState (toString s))

/-- `From<TcpState> for u8` (flow.rs). -/
def toU8 : TcpState → Nat
  | .none => 0
  | .synSent => 1
  | .synRecv => 2
  | .established => 3
  | .finWait => 4
  | .closeWait => 5
  | .lastAck => 6
  | .timeWait => 7
  | .close => 8
  | .listen => 9

theorem tryFromU8_toU8 (s : TcpState) : tryFromU8 (toU8 s) = .ok s := by
  cases s <;> rfl

end TcpState

/-- `ConnectionStatusFlag` (netlink-packet-netfilter): the 15 defined
connection-status flags, each carrying a distinct power-of-two discriminant
(the kernel's IPS_* bits; the in-repo tests pin `SeenReply = 1<<1`,
`Assured = 1<<2`, `SourceNATDone = 1<<7`). -/
inductive ConnectionStatusFlag where
  | expected
  | seenReply
  | assured
  | confirmed
  | sourceNAT
  | destinationNAT
  | sequenceAdjust
  | sourceNATDone
  | destinationNATDone
  | dying
  | fixedTimeout
  | template
  | untracked
  | helper
  | offload
deriving DecidableEq, Repr, Fintype

namespace ConnectionStatusFlag

/-- Bit position of each flag's power-of-two discriminant. -/
def pos : ConnectionStatusFlag → Nat
  | .expected => 0
  | .seenReply => 1
  | .assured => 2
  | .confirmed => 3
  | .sourceNAT => 4
  | .destinationNAT => 5
  | .sequenceAdjust => 6
  | .sourceNATDone => 7
  | .destinationNATDone => 8
  | .dying => 9
  | .fixedTimeout => 10
  | .template => 11
  | .untracked => 12
  | .helper => 13
  | .offload => 14

/-- The flag's numeric discriminant (`flag as u16` / `flag as u32`). -/
def bit (f : ConnectionStatusFlag) : Nat := 2 ^ f.pos

theorem pos_injective {f g : ConnectionStatusFlag} (h : pos f = pos g) : f = g := by
  cases f <;> cases g <;> first | rfl | (exact absurd h (by decide))

theorem pos_lt_15 (f : ConnectionStatusFlag) : f.pos < 15 := by
  cases f <;> decide

theorem exists_pos_eq_iff (j : Nat) :
    (∃ f : ConnectionStatusFlag, pos f = j) ↔ j < 15 := by
  constructor
  · rintro ⟨f, rfl⟩
    exact pos_lt_15 f
  · intro h
    interval_cases j
    · exact ⟨.expected, rfl⟩
    · exact ⟨.seenReply, rfl⟩
    · exact ⟨.assured, rfl⟩
    · exact ⟨.confirmed, rfl⟩
    · exact ⟨.sourceNAT, rfl⟩
    · exact ⟨.destinationNAT, rfl⟩
    · exact ⟨.sequenceAdjust, rfl⟩
    · exact ⟨.sourceNATDone, rfl⟩
    · exact ⟨.destinationNATDone, rfl⟩
    · exact ⟨.dying, rfl⟩
    · exact ⟨.fixedTimeout, rfl⟩
    · exact ⟨.template, rfl⟩
    · exact ⟨.untracked, rfl⟩
    · exact ⟨.helper, rfl⟩
    · exact ⟨.offload, rfl⟩

end ConnectionStatusFlag

/-- `FLAGS` (flow.rs): the fixed list of all 15 defined flags, in source
order. -/
def FLAGS : List ConnectionStatusFlag :=
  [.expected, .seenReply, .assured, .confirmed, .sourceNAT, .destinationNAT,
   .sequenceAdjust, .sourceNATDone, .destinationNATDone, .dying,
   .fixedTimeout, .template, .untracked, .helper, .offload]

theorem mem_FLAGS (f : ConnectionStatusFlag) : f ∈ FLAGS := by
  cases f <;> simp [FLAGS]

/-- `ConnectionStatus` (netlink-packet-netfilter): a raw 32-bit status word
as carried by the status attribute; `get` returns the word. -/
structure ConnectionStatus where
  get : Nat
deriving DecidableEq, Repr

/-- `Status` (flow.rs): the set of recognized connection-status flags.  The
Rust type wraps a `HashSet`; a `Finset` models it (equality is set
equality, iteration order is immaterial because the only fold used is
bitwise or). -/
structure Status where
  inner : Finset ConnectionStatusFlag
deriving DecidableEq

instance : Std.Commutative (α := Nat) (· ||| ·) := ⟨fun a b => Nat.lor_comm a b⟩
instance : Std.Associative (α := Nat) (· ||| ·) := ⟨fun a b c => Nat.lor_assoc a b c⟩

namespace Status

/-- The shared ingest loop of `From<&ConnectionStatus> for Status` and
`From<u16> for Status` (flow.rs): keep exactly the defined flags whose bit
is set in the input word. -/
def ofBits (v : Nat) : Status :=
  ⟨(FLAGS.filter (fun f => v &&& f.bit != 0)).toFinset⟩

/-- `From<u16> for Status` (flow.rs). -/
def fromU16 (v : Nat) : Status := ofBits v

/-- `From<&ConnectionStatus> for Status` (flow.rs). -/
def fromConnectionStatus (s : ConnectionStatus) : Status := ofBits s.get

/-- `From<&Status> for u16` (flow.rs): or together the discriminants of the
contained flags. -/
def toU16 (s : Status) : Nat :=
  Finset.fold (· ||| ·) 0 ConnectionStatusFlag.bit s.inner

/-- `Status::assured()` (flow.rs). -/
def assured : Status := ⟨{ConnectionStatusFlag.assured}⟩

/-- `Status::seen_reply()` (flow.rs). -/
def seen_reply : Status := ⟨{ConnectionStatusFlag.seenReply}⟩

theorem bit_testBit (f : ConnectionStatusFlag) (j : Nat) :
    (ConnectionStatusFlag.bit f).testBit j = true ↔ f.pos = j := by
  rw [ConnectionStatusFlag.bit, Nat.testBit_two_pow]
  exact decide_eq_true_iff

theorem testBit_toU16 (s : Status) (j : Nat) :
    (toU16 s).testBit j = true ↔ ∃ f ∈ s.inner, ConnectionStatusFlag.pos f = j := by
  unfold toU16
  induction s.inner using Finset.induction_on with
  | empty => simp
  | @insert a t ha ih =>
    rw [Finset.fold_insert ha]
    simp only [Nat.testBit_or, Bool.or_eq_true, ih, Finset.mem_insert, bit_testBit]
    constructor
    · rintro (h | ⟨f, hf, h⟩)
      · exact ⟨a, Or.inl rfl, h⟩
      · exact ⟨f, Or.inr hf, h⟩
    · rintro ⟨f, hf | hf, h⟩
      · subst hf
        exact Or.inl h
      · exact Or.inr ⟨f, hf, h⟩

theorem mem_ofBits (v : Nat) (f : ConnectionStatusFlag) :
    f ∈ (ofBits v).inner ↔ v.testBit f.pos = true := by
  unfold ofBits
  simp only [List.mem_toFinset, List.mem_filter, bne_iff_ne, ne_eq]
  rw [ConnectionStatusFlag.bit, Nat.and_two_pow]
  constructor
  · rintro ⟨-, h⟩
    cases hb : v.testBit f.pos
    · simp [hb] at h
    · rfl
  · intro h
    refine ⟨mem_FLAGS f, ?_⟩
    rw [h]
    simp

/-- Decoding a status word and re-encoding it keeps exactly the low 15
bits: undefined bits are dropped on ingest. -/
theorem toU16_ofBits (v : Nat) : toU16 (ofBits v) = v &&& 32767 := by
  apply Nat.eq_of_testBit_eq
  intro j
  have h15 : (32767 : Nat) = 2 ^ 15 - 1 := by norm_num
  rw [Bool.eq_iff_iff, testBit_toU16, Nat.testBit_and, h15,
    Nat.testBit_two_pow_sub_one, Bool.and_eq_true, decide_eq_true_iff]
  constructor
  · rintro ⟨f, hf, rfl⟩
    rw [mem_ofBits] at hf
    exact ⟨hf, ConnectionStatusFlag.pos_lt_15 f⟩
  · rintro ⟨hv, hj⟩
    obtain ⟨f, hf⟩ := (ConnectionStatusFlag.exists_pos_eq_iff j).2 hj
    exact ⟨f, (mem_ofBits v f).2 (by rw [hf]; exact hv), hf⟩

theorem ext_inner : ∀ {a b : Status}, a.inner = b.inner → a = b := by
  rintro ⟨a⟩ ⟨b⟩ h
  simpa using h

/-- Re-encoding then decoding a flag set is the identity. -/
theorem ofBits_toU16 (s : Status) : ofBits (toU16 s) = s := by
  apply ext_inner
  ext f
  rw [mem_ofBits, testBit_toU16]
  constructor
  · rintro ⟨g, hg, hpos⟩
    rwa [ConnectionStatusFlag.pos_injective hpos] at hg
  · intro hf
    exact ⟨f, hf, rfl⟩

end Status

/-- `MessageType` (message.rs): event kind with its multicast-group
discriminant. -/
inductive MessageType where
  | new
  | update
  | destroy
deriving DecidableEq, Repr

/-- `MessageType as u32` discriminants (message.rs): New = 1, Update = 2,
Destroy = 4. -/
def MessageType.toU32 : MessageType → Nat
  | .new => 1
  | .update => 2
  | .destroy => 4

/-- `Tuple` (flow.rs): one direction of a connection. -/
structure Tuple where
  src_addr : IpAddr
  dst_addr : IpAddr
  src_port : Nat
  dst_port : Nat
deriving DecidableEq, Repr

/-- `IpTuple` (netlink-packet-netfilter): the address sub-group of a tuple
attribute. -/
structure IpTuple where
  src_addr : IpAddr
  dst_addr : IpAddr
deriving DecidableEq, Repr

/-- `ProtocolTuple` (netlink-packet-netfilter): the protocol sub-group of a
tuple attribute. -/
structure ProtocolTuple where
  src_port : Nat
  dst_port : Nat
  protocol : Nat
deriving DecidableEq, Repr

/-- `TupleNla` (netlink-packet-netfilter): one member of a tuple attribute
group. -/
inductive TupleNla where
  | ip (t : IpTuple)
  | protocol (t : ProtocolTuple)
deriving DecidableEq, Repr

/-- `ProtocolInfoTcp` (netlink-packet-netfilter). -/
structure ProtocolInfoTcp where
  state : Nat
  wscale_original : Nat
  wscale_reply : Nat
  flgas_original : Nat
  flags_reply : Nat
deriving DecidableEq, Repr

/-- `CtAttr` (netlink-packet-netfilter): a raw, untyped attribute. -/
structure CtAttr where
  nested : Option Bool
  attr_type : Nat
  length : Nat
  value : Option (List Nat)
deriving DecidableEq, Repr

/-- `ProtocolInfo` (netlink-packet-netfilter). -/
inductive ProtocolInfo where
  | tcp (info : ProtocolInfoTcp)
  | other (attr : CtAttr)
deriving DecidableEq, Repr

/-- `FlowNla` (netlink-packet-netfilter): one top-level attribute of a flow
message. -/
inductive FlowNla where
  | orig (nlas : List TupleNla)
  | reply (nlas : List TupleNla)
  | protocolInfo (info : ProtocolInfo)
  | mark (v : Nat)
  | use (v : Nat)
  | timeout (t : Nat)
  | status (s : ConnectionStatus)
  | id (v : Nat)
  | other (attr : CtAttr)
deriving DecidableEq, Repr

/-- `StatNla` (netlink-packet-netfilter): one attribute of a per-CPU
statistics message. -/
inductive StatNla where
  | searched (v : Nat)
  | found (v : Nat)
  | newCount (v : Nat)
  | invalid (v : Nat)
  | ignore (v : Nat)
  | delete (v : Nat)
  | deleteList (v : Nat)
  | insert (v : Nat)
  | insertFailed (v : Nat)
  | drop (v : Nat)
  | earlyDrop (v : Nat)
  | error (v : Nat)
  | searchRestart (v : Nat)
  | clashResolve (v : Nat)
  | chainTooLong (v : Nat)
  | other (attr : CtAttr)
deriving DecidableEq, Repr

/-- `CtNetlinkMessage` (netlink-packet-netfilter): the inner family
message. -/
inductive CtNetlinkMessage where
  | new (nlas : List FlowNla)
  | get (nlas : Option (List FlowNla))
  | delete (nlas : List FlowNla)
  | getCrtZero (nlas : Option (List FlowNla))
  | getStatsCPU (nlas : Option (List StatNla))
  | getStats (nlas : Option (List StatNla))
  | getDying (nlas : Option (List FlowNla))
  | getUnconfirmed (nlas : Option (List FlowNla))
deriving DecidableEq, Repr

/-- `CtNetlinkMessage::message_type` (the IPCTNL_MSG_CT_* codes). -/
def CtNetlinkMessage.messageType : CtNetlinkMessage → Nat
  | .new _ => 0
  | .get _ => 1
  | .delete _ => 2
  | .getCrtZero _ => 3
  | .getStatsCPU _ => 4
  | .getStats _ => 5
  | .getDying _ => 6
  | .getUnconfirmed _ => 7

/-- `NetlinkError` (error.rs): enumerated kernel error kinds. -/
inductive NetlinkError where
  | operationNotPermitted
  | noEntry
  | io
  | alreadyExists
  | invalidArgument
  | other (code : Int)
deriving DecidableEq, Repr

/-- `From<i32> for NetlinkError` (error.rs). -/
def NetlinkError.fromCode (e : Int) : NetlinkError :=
  if e = -1 then .operationNotPermitted
  else if e = -2 then .noEntry
  else if e = -5 then .io
  else if e = -17 then .alreadyExists
  else if e = -22 then .invalidArgument
  else .other e

/-- `Error` (error.rs).  I/O causes and decode diagnostics are carried as
strings. -/
inductive Error where
  | socket (cause : String)
  | invalidFamily (s : String)
  | invalidL4Protocol (s : String)
  | invalidTable (s : String)
  | invalidTcpState (s : String)
  | invalidCtState (s : String)
  | send (cause : String)
  | recv (cause : String)
  | poll (cause : String)
  | netfilter (cause : String)
  | netlinkMessage (e : NetlinkError)
  | flow (e : FlowError)
  | message (s : String)
  | dummy
deriving DecidableEq, Repr

/-- `Message` (message.rs): the envelope of one decoded family message with
the outer frame's flag word and the family header's resource id. -/
structure Message where
  flag : Nat
  res_id : Nat
  msg : CtNetlinkMessage
deriving DecidableEq, Repr

/-- `Message::new(msg, flag, res_id)` (message.rs). -/
def Message.new (msg : CtNetlinkMessage) (flag : Nat) (res_id : Nat) : Message :=
  { flag := flag, res_id := res_id, msg := msg }

/-- `Stats` (stats.rs): the per-CPU statistics record. -/
structure Stats where
  cpu : Nat
  searched : Option Nat
  found : Nat
  newCount : Option Nat
  invalid : Nat
  ignore : Option Nat
  delete : Option Nat
  delete_list : Option Nat
  insert : Nat
  insert_failed : Nat
  drop : Nat
  early_drop : Nat
  error : Nat
  search_restart : Nat
  clash_resolve : Nat
  chain_too_long : Nat
deriving DecidableEq, Repr

/-- `Stats::default()` with every counter zero and every deprecated slot
empty. -/
def Stats.default : Stats :=
  { cpu := 0, searched := none, found := 0, newCount := none, invalid := 0,
    ignore := none, delete := none, delete_list := none, insert := 0,
    insert_failed := 0, drop := 0, early_drop := 0, error := 0,
    search_restart := 0, clash_resolve := 0, chain_too_long := 0 }

/-- `Stats::from_nlas` (stats.rs): walk the attribute list, keeping live
counters, discarding deprecated ones, skipping unknown ids. -/
def Stats.fromNlas (cpu : Nat) (nlas : List StatNla) : Stats :=
  nlas.foldl
    (fun stats nla =>
      match nla with
      | .searched _ => { stats with searched := none }
      | .found v => { stats with found := v }
      | .newCount _ => { stats with newCount := none }
      | .invalid v => { stats with invalid := v }
      | .ignore _ => { stats with ignore := none }
      | .delete _ => { stats with delete := none }
      | .deleteList _ => { stats with delete_list := none }
      | .insert v => { stats with insert := v }
      | .insertFailed v => { stats with insert_failed := v }
      | .drop v => { stats with drop := v }
      | .earlyDrop v => { stats with early_drop := v }
      | .error v => { stats with error := v }
      | .searchRestart v => { stats with search_restart := v }
      | .clashResolve v => { stats with clash_resolve := v }
      | .chainTooLong v => { stats with chain_too_long := v }
      | .other _ => stats)
    { Stats.default with cpu := cpu }

/-- `Flow` (flow.rs): the canonical record of one tracked connection. -/
structure Flow where
  original : Tuple
  reply : Tuple
  protocol : Protocol
  mark : Nat
  use : Nat
  tcp_state : Option TcpState
  status : Status
  timeout : Nat
deriving DecidableEq

/-- `TupleBuilder` (flow.rs). -/
structure TupleBuilder where
  src_addr : Option IpAddr := none
  dst_addr : Option IpAddr := none
  src_port : Option Nat := none
  dst_port : Option Nat := none
deriving DecidableEq, Repr

namespace TupleBuilder

def srcAddr (b : TupleBuilder) (addr : IpAddr) : TupleBuilder :=
  { b with src_addr := some addr }

def dstAddr (b : TupleBuilder) (addr : IpAddr) : TupleBuilder :=
  { b with dst_addr := some addr }

def srcPort (b : TupleBuilder) (port : Nat) : TupleBuilder :=
  { b with src_port := some port }

def dstPort (b : TupleBuilder) (port : Nat) : TupleBuilder :=
  { b with dst_port := some port }

/-- `TupleBuilder::build` (flow.rs): each `ok_or(MissingField)?` step is a
match on the optional field. -/
def build (b : TupleBuilder) : Except FlowError Tuple :=
  match b.src_addr with
  | none => .error (.missingField "src_addr")
  | some src_addr =>
  match b.dst_addr with
  | none => .error (.missingField "dst_addr")
  | some dst_addr =>
  match b.src_port with
  | none => .error (.missingField "src_port")
  | some src_port =>
  match b.dst_port with
  | none => .error (.missingField "dst_port")
  | some dst_port =>
  .ok { src_addr := src_addr, dst_addr := dst_addr,
        src_port := src_port, dst_port := dst_port }

end TupleBuilder

/-- `FlowBuilder` (flow.rs). -/
structure FlowBuilder where
  original : Option Tuple := none
  reply : Option Tuple := none
  protocol : Option Protocol := none
  mark : Option Nat := none
  use : Option Nat := none
  tcp_state : Option TcpState := none
  status : Option Status := none
  timeout : Option Nat := none
deriving DecidableEq

namespace FlowBuilder

def setOriginal (b : FlowBuilder) (t : Tuple) : FlowBuilder :=
  { b with original := some t }

def setReply (b : FlowBuilder) (t : Tuple) : FlowBuilder :=
  { b with reply := some t }

def setProtocol (b : FlowBuilder) (p : Protocol) : FlowBuilder :=
  { b with protocol := some p }

def setMark (b : FlowBuilder) (v : Nat) : FlowBuilder :=
  { b with mark := some v }

def setUse (b : FlowBuilder) (v : Nat) : FlowBuilder :=
  { b with use := some v }

def setTcpState (b : FlowBuilder) (s : TcpState) : FlowBuilder :=
  { b with tcp_state := some s }

def setStatus (b : FlowBuilder) (s : Status) : FlowBuilder :=
  { b with status := some s }

def setTimeout (b : FlowBuilder) (t : Nat) : FlowBuilder :=
  { b with timeout := some t }

/-- `FlowBuilder::build` (flow.rs): every field except `tcp_state` is
required; each `ok_or(MissingField)?` step is a match on the field. -/
def build (b : FlowBuilder) : Except FlowError Flow :=
  match b.original with
  | none => .error (.missingField "original")
  | some original =>
  match b.reply with
  | none => .error (.missingField "reply")
  | some reply =>
  match b.protocol with
  | none => .error (.missingField "protocol")
  | some protocol =>
  match b.mark with
  | none => .error (.missingField "mark")
  | some mark =>
  match b.use with
  | none => .error (.missingField "use")
  | some use =>
  match b.status with
  | none => .error (.missingField "status")
  | some status =>
  match b.timeout with
  | none => .error (.missingField "timeout")
  | some timeout =>
  .ok { original := original, reply := reply, protocol := protocol,
        mark := mark, use := use, tcp_state := b.tcp_state,
        status := status, timeout := timeout }

end FlowBuilder

namespace Flow

/-- The `Orig` arm of the decoder's attribute walk (flow.rs): fold the
tuple sub-attributes into a `TupleBuilder`. -/
def origTupleBuilder (nlas : List TupleNla) : TupleBuilder :=
  nlas.foldl
    (fun tb nla =>
      match nla with
      | .ip t => (tb.srcAddr t.src_addr).dstAddr t.dst_addr
      | .protocol t => (tb.srcPort t.src_port).dstPort t.dst_port)
    {}

/-- One step of the `Reply` arm's inner loop (flow.rs): build the reply
tuple while additionally recording the flow's L4 protocol from the
protocol sub-attribute. -/
def replyStep (acc : TupleBuilder × FlowBuilder) (nla : TupleNla) :
    TupleBuilder × FlowBuilder :=
  match nla with
  | .ip t => ((acc.1.srcAddr t.src_addr).dstAddr t.dst_addr, acc.2)
  | .protocol t =>
      ((acc.1.srcPort t.src_port).dstPort t.dst_port,
       acc.2.setProtocol (Protocol.fromU8 t.protocol))

/-- One step of the decoder's top-level attribute walk (flow.rs). -/
def walkNla (fb : FlowBuilder) (nla : FlowNla) : Except FlowError FlowBuilder :=
  match nla with
  | .orig orig => do
      let t ← (origTupleBuilder orig).build
      pure (fb.setOriginal t)
  | .reply rep => do
      let (tb, fb) := rep.foldl replyStep ({}, fb)
      let t ← tb.build
      pure (fb.setReply t)
  | .protocolInfo info =>
      match info with
      | .tcp info => do
          let s ← TcpState.tryFromU8 info.state
          pure (fb.setTcpState s)
      | .other _ => pure fb
  | .mark v => pure (fb.setMark v)
  | .use v => pure (fb.setUse v)
  | .timeout t => pure (fb.setTimeout t)
  | .status s => pure (fb.setStatus (Status.fromConnectionStatus s))
  | .id _ => pure fb
  | .other _ => pure fb

/-- `TryFrom<&CtNetlinkMessage> for Flow` (flow.rs): only a `New` message
carries a complete flow; walk its attributes and build. -/
def tryFrom (msg : CtNetlinkMessage) : Except FlowError Flow :=
  match msg with
  | .new nlas => do
      let fb ← nlas.foldlM walkNla {}
      fb.build
  | _ => .error (.invalidMessageType msg.messageType)

end Flow

/-- `TryFrom<&Flow> for CtNetlinkMessage` (flow.rs): the test-only reverse
serializer.  The `flow.tcp_state.unwrap()` on the TCP arm panics when a TCP
flow has no state; the panic is modelled by `Option.none` (the builder
calls in the source cannot fail: every field is supplied). -/
def CtNetlinkMessage.tryFromFlow (flow : Flow) : Option CtNetlinkMessage := do
  let origIp : IpTuple :=
    { src_addr := flow.original.src_addr, dst_addr := flow.original.dst_addr }
  let origProto : ProtocolTuple :=
    { src_port := flow.original.src_port, dst_port := flow.original.dst_port,
      protocol := flow.protocol.toU8 }
  let replyIp : IpTuple :=
    { src_addr := flow.reply.src_addr, dst_addr := flow.reply.dst_addr }
  let replyProto : ProtocolTuple :=
    { src_port := flow.reply.src_port, dst_port := flow.reply.dst_port,
      protocol := flow.protocol.toU8 }
  let protocolInfo : ProtocolInfo ←
    match flow.protocol with
    | .tcp => do
        let s ← flow.tcp_state
        pure (ProtocolInfo.tcp
          { state := s.toU8, wscale_original := 0, wscale_reply := 0,
            flgas_original := 0, flags_reply := 0 })
    | _ =>
        pure (ProtocolInfo.other
          { nested := none, attr_type := 0, length := 0, value := some [0] })
  pure (CtNetlinkMessage.new
    [.orig [.ip origIp, .protocol origProto],
     .reply [.ip replyIp, .protocol replyProto],
     .protocolInfo protocolInfo,
     .mark flow.mark,
     .use flow.use,
     .timeout flow.timeout,
     .status ⟨flow.status.toU16⟩,
     .id 0])

namespace Engine

/-- The engine-side `Flow` record, as used by `request.rs`, `event.rs` and
`lib.rs` (its defining file is absent from the snapshot, which carries an
older `flow.rs`).  Modelled from the spec: "a pair of tuples (original +
reply) plus protocol, TCP state, status bitset, timeout, mark, use" and an
event kind; `mark` and `use` are optional, as pinned by
`Filter::apply` (request.rs) matching them against `Option` and by the
display front-end's `Mark(Option<u32>)`/`Use(Option<u32>)` columns. -/
structure Flow where
  original : Tuple
  reply : Tuple
  protocol : Protocol
  mark : Option Nat
  use : Option Nat
  tcp_state : Option TcpState
  status : Status
  timeout : Nat
  event_type : MessageType
deriving DecidableEq

/-- The engine-side `FlowBuilder`.  Modelled from the spec (§4.2): field
completeness is enforced at construction. -/
structure FlowBuilder where
  original : Option Tuple := none
  reply : Option Tuple := none
  protocol : Option Protocol := none
  mark : Option Nat := none
  use : Option Nat := none
  tcp_state : Option TcpState := none
  status : Option Status := none
  timeout : Option Nat := none
  event_type : Option MessageType := none
deriving DecidableEq

namespace FlowBuilder

/-- `FlowBuilder::event_type` (called by `Event::try_from`, event.rs). -/
def eventType (b : FlowBuilder) (t : MessageType) : FlowBuilder :=
  { b with event_type := some t }

/-- One step of the `Reply` arm's inner loop, on the engine's builder. -/
def replyStep (acc : TupleBuilder × FlowBuilder) (nla : TupleNla) :
    TupleBuilder × FlowBuilder :=
  match nla with
  | .ip t => ((acc.1.srcAddr t.src_addr).dstAddr t.dst_addr, acc.2)
  | .protocol t =>
      ((acc.1.srcPort t.src_port).dstPort t.dst_port,
       { acc.2 with protocol := some (Protocol.fromU8 t.protocol) })

/-- One step of the engine decoder's top-level attribute walk.  Modelled
from the spec (§4.2); the walk is the one of `flow.rs` (`Flow::try_from`),
carried out on the engine's builder. -/
def walkNla (fb : FlowBuilder) (nla : FlowNla) : Except FlowError FlowBuilder :=
  match nla with
  | .orig orig => do
      let t ← (Conntrack.Flow.origTupleBuilder orig).build
      pure { fb with original := some t }
  | .reply rep => do
      let (tb, fb) := rep.foldl replyStep ({}, fb)
      let t ← tb.build
      pure { fb with reply := some t }
  | .protocolInfo info =>
      match info with
      | .tcp info => do
          let s ← TcpState.tryFromU8 info.state
          pure { fb with tcp_state := some s }
      | .other _ => pure fb
  | .mark v => pure { fb with mark := some v }
  | .use v => pure { fb with use := some v }
  | .timeout t => pure { fb with timeout := some t }
  | .status s => pure { fb with status := some (Status.fromConnectionStatus s) }
  | .id _ => pure fb
  | .other _ => pure fb

/-- `FlowBuilder::try_from(&Vec<FlowNla>)` (used by `Event::try_from`,
event.rs).  Modelled from the spec (§4.2): walk the attribute list. -/
def tryFromNlas (nlas : List FlowNla) : Except FlowError FlowBuilder :=
  nlas.foldlM walkNla {}

/-- The engine-side `FlowBuilder::build`.  Modelled from the spec (§4.2):
each of original tuple, reply tuple, protocol, mark, use, timeout and
status is required (`MissingField` otherwise); `tcp_state` stays optional;
the event kind is set by the conversion paths before building. -/
def build (b : FlowBuilder) : Except FlowError Flow :=
  match b.original with
  | none => .error (.missingField "original")
  | some original =>
  match b.reply with
  | none => .error (.missingField "reply")
  | some reply =>
  match b.protocol with
  | none => .error (.missingField "protocol")
  | some protocol =>
  match b.mark with
  | none => .error (.missingField "mark")
  | some mark =>
  match b.use with
  | none => .error (.missingField "use")
  | some use =>
  match b.status with
  | none => .error (.missingField "status")
  | some status =>
  match b.timeout with
  | none => .error (.missingField "timeout")
  | some timeout =>
  match b.event_type with
  | none => .error (.missingField "event_type")
  | some event_type =>
  .ok { original := original, reply := reply, protocol := protocol,
        mark := some mark, use := some use, tcp_state := b.tcp_state,
        status := status, timeout := timeout, event_type := event_type }

end FlowBuilder

end Engine

/-- `NetfilterMessageInner` (netlink-packet-netfilter): the inner payload
of a netfilter message; only the ctnetlink variant is used, other
subsystems are collapsed into one constructor. -/
inductive NetfilterMessageInner where
  | ctNetlink (msg : CtNetlinkMessage)
  | otherSubsystem
deriving DecidableEq, Repr

/-- `NetfilterMessage` (netlink-packet-netfilter): netfilter header
(family, version, resource id) plus inner message. -/
structure NetfilterMessage where
  family : Nat
  version : Nat
  res_id : Nat
  inner : NetfilterMessageInner
deriving DecidableEq, Repr

/-- `NFNETLINK_V0`. -/
def NFNETLINK_V0 : Nat := 0

/-- `NLM_F_REQUEST`. -/
def NLM_F_REQUEST : Nat := 1

/-- `NLM_F_ROOT`. -/
def NLM_F_ROOT : Nat := 0x100

/-- `NLM_F_MATCH`. -/
def NLM_F_MATCH : Nat := 0x200

/-- `NLM_F_DUMP = NLM_F_ROOT | NLM_F_MATCH`. -/
def NLM_F_DUMP : Nat := 0x300

/-- `NLM_F_CREATE` (linux/netlink.h, used by `Event::try_from`). -/
def NLM_F_CREATE : Nat := 0x400

/-- An outbound `NetlinkMessage<NetfilterMessage>`: the outer header's flag
word plus the netfilter payload (length/sequence bookkeeping done by
`finalize()` is not represented). -/
structure NetlinkMessage where
  flags : Nat
  payload : NetfilterMessage
deriving DecidableEq, Repr

/-- `MessageBuilder` (message.rs). -/
structure MessageBuilder where
  family : Family
  table : Table
  res_id : Nat
  flag : Nat
  zero : Bool
deriving DecidableEq, Repr

/-- `Direction` (request.rs). -/
inductive Direction where
  | orig (tuple : Tuple)
  | reply (tuple : Tuple)
deriving DecidableEq, Repr

/-- `GetParams` (request.rs). -/
structure GetParams where
  protocol : Protocol
  directed_tuple : Direction
deriving DecidableEq, Repr

/-- `From<&GetParams> for Vec<FlowNla>` (request.rs): one directed tuple
group, the address sub-group first, the protocol sub-group second. -/
def GetParams.toNlas (param : GetParams) : List FlowNla :=
  match param.directed_tuple with
  | .orig tuple =>
      [.orig [.ip { src_addr := tuple.src_addr, dst_addr := tuple.dst_addr },
              .protocol { src_port := tuple.src_port, dst_port := tuple.dst_port,
                          protocol := param.protocol.toU8 }]]
  | .reply tuple =>
      [.reply [.ip { src_addr := tuple.src_addr, dst_addr := tuple.dst_addr },
               .protocol { src_port := tuple.src_port, dst_port := tuple.dst_port,
                           protocol := param.protocol.toU8 }]]

namespace MessageBuilder

/-- `MessageBuilder::new` (message.rs): request flag pre-set. -/
def new (family : Family) (table : Table) : MessageBuilder :=
  { family := family, table := table, res_id := 0, flag := NLM_F_REQUEST,
    zero := false }

/-- `MessageBuilder::zero` (message.rs). -/
def setZero (b : MessageBuilder) : MessageBuilder := { b with zero := true }

/-- `MessageBuilder::res_id` (message.rs). -/
def setResId (b : MessageBuilder) (id : Nat) : MessageBuilder :=
  { b with res_id := id }

/-- `MessageBuilder::list` (message.rs). -/
def list (b : MessageBuilder) : NetlinkMessage :=
  let hdrFlags := b.flag ||| NLM_F_DUMP
  let inner : CtNetlinkMessage :=
    if b.zero then .getCrtZero none
    else
      match b.table with
      | .conntrack => .get none
      | .dying => .getDying none
      | .unconfirmed => .getUnconfirmed none
  { flags := hdrFlags,
    payload := { family := b.family.toU8, version := NFNETLINK_V0,
                 res_id := b.res_id, inner := .ctNetlink inner } }

/-- `MessageBuilder::get` (message.rs). -/
def get (b : MessageBuilder) (param : GetParams) : NetlinkMessage :=
  let nlas := param.toNlas
  let inner : CtNetlinkMessage :=
    match b.table with
    | .conntrack => .get (some nlas)
    | .dying => .getDying (some nlas)
    | .unconfirmed => .getUnconfirmed (some nlas)
  -- For the Dying/Unconfirmed tables the source builds the message from
  -- the payload alone, leaving the header flags at their default.
  let hdrFlags := match b.table with
    | .conntrack => b.flag
    | _ => 0
  { flags := hdrFlags,
    payload := { family := b.family.toU8, version := NFNETLINK_V0,
                 res_id := b.res_id, inner := .ctNetlink inner } }

/-- `MessageBuilder::count` (message.rs). -/
def count (b : MessageBuilder) : NetlinkMessage :=
  { flags := b.flag,
    payload := { family := b.family.toU8, version := NFNETLINK_V0,
                 res_id := 0, inner := .ctNetlink (.getStats none) } }

/-- `MessageBuilder::stat` (message.rs). -/
def stat (b : MessageBuilder) : NetlinkMessage :=
  { flags := b.flag ||| NLM_F_ROOT ||| NLM_F_MATCH,
    payload := { family := b.family.toU8, version := NFNETLINK_V0,
                 res_id := 0, inner := .ctNetlink (.getStatsCPU none) } }

end MessageBuilder

/-- `Filter` (request.rs): the optional field set parallel to `Flow`. -/
structure Filter where
  family : Option Family := none
  protocol : Option Protocol := none
  orig_src_addr : Option IpNet := none
  orig_dst_addr : Option IpNet := none
  reply_src_addr : Option IpNet := none
  reply_dst_addr : Option IpNet := none
  orig_src_port : Option Nat := none
  orig_dst_port : Option Nat := none
  reply_src_port : Option Nat := none
  reply_dst_port : Option Nat := none
  mark : Option Nat := none
  use : Option Nat := none
  tcp_state : Option TcpState := none
  status : Option Status := none
deriving DecidableEq

namespace Filter

/-- One optional field check of `Filter::apply` (request.rs): an absent
field passes, a present one runs its test.  The source's early
`return false` on a failed test is the short-circuit of the surrounding
conjunction. -/
def checkOpt {α : Type} (o : Option α) (ck : α → Bool) : Bool :=
  match o with
  | some x => ck x
  | none => true

/-- `Filter::apply` (request.rs): every present field must pass, in source
order. -/
def apply (self : Filter) (flow : Engine.Flow) : Bool :=
  checkOpt self.family (fun f => f.isMatched flow.original.src_addr) &&
  checkOpt self.protocol (fun p => p == flow.protocol) &&
  checkOpt self.tcp_state (fun s =>
    match flow.tcp_state with
    | some flowS => s == flowS
    -- When flow.tcp_state is None the flow is not TCP: a tcp-state filter
    -- rejects it.
    | none => false) &&
  checkOpt self.orig_src_addr (fun cidr => cidr.contains flow.original.src_addr) &&
  checkOpt self.orig_dst_addr (fun cidr => cidr.contains flow.original.dst_addr) &&
  checkOpt self.reply_src_addr (fun cidr => cidr.contains flow.reply.src_addr) &&
  checkOpt self.reply_dst_addr (fun cidr => cidr.contains flow.reply.dst_addr) &&
  checkOpt self.orig_src_port (fun port => port == flow.original.src_port) &&
  checkOpt self.orig_dst_port (fun port => port == flow.original.dst_port) &&
  checkOpt self.reply_src_port (fun port => port == flow.reply.src_port) &&
  checkOpt self.reply_dst_port (fun port => port == flow.reply.dst_port) &&
  checkOpt self.mark (fun mark =>
    match flow.mark with
    | some m => mark == m
    | none => false) &&
  checkOpt self.use (fun us =>
    match flow.use with
    | some u => us == u
    | none => false) &&
  checkOpt self.status (fun s =>
    Status.toU16 flow.status &&& Status.toU16 s != 0)

end Filter

/-- `RequestOperation` (request.rs). -/
inductive RequestOperation where
  | list (f : Option Filter)
  | get (params : GetParams)
  | event (f : Option Filter)
  | count
  | stat
deriving DecidableEq

/-- `RequestOperation::filter` (request.rs): `List` and `Event` carry their
filter, `Get`, `Count` and `Stat` carry none. -/
def RequestOperation.filter : RequestOperation → Option Filter
  | .list f => f
  | .get _ => none
  | .event f => f
  | .count => none
  | .stat => none

/-- `RequestMeta` (request.rs). -/
structure RequestMeta where
  family : Family := .ipv4
  table : Table := .conntrack
  res_id : Nat := 0
  zero : Bool := false
deriving DecidableEq, Repr

/-- `From<&RequestMeta> for MessageBuilder` (request.rs). -/
def RequestMeta.toBuilder (r : RequestMeta) : MessageBuilder :=
  if r.zero then
    ((MessageBuilder.new r.family r.table).setResId r.res_id).setZero
  else
    (MessageBuilder.new r.family r.table).setResId r.res_id

/-- `Request` (request.rs). -/
structure Request where
  meta : RequestMeta
  op : RequestOperation
deriving DecidableEq

namespace Request

/-- `Request::message` (request.rs): `Event` produces no frame, every other
operation builds one. -/
def message (self : Request) : Except Error (Option NetlinkMessage) :=
  let builder := self.meta.toBuilder
  match self.op with
  | .list _ => .ok (some builder.list)
  | .get param => .ok (some (builder.get param))
  | .event _ => .ok none
  | .count => .ok (some builder.count)
  | .stat => .ok (some builder.stat)

/-- `Request::filter` (request.rs). -/
def filter (self : Request) : Option Filter := self.op.filter

end Request

/-- `Event` (event.rs): tagged union of flow / counter / statistics. -/
inductive Event where
  | flow (f : Engine.Flow)
  | count (c : Nat)
  | stats (s : Stats)
deriving DecidableEq

namespace Event

/-- `TryFrom<&Message> for Event` (event.rs): classify the inner family
message; `New` and `Delete` decode a flow (the event kind of a `New` frame
is `New` when the frame's flag word carries the create bit, `Update`
otherwise; a `Delete` frame is `Destroy`); `GetStats` extracts the
`Searched` counter; `GetStatsCPU` builds the per-CPU statistics from the
resource id. -/
def tryFrom (msg : Message) : Except Error Event :=
  match msg.msg with
  | .new nlas => do
      let builder ← (Engine.FlowBuilder.tryFromNlas nlas).mapError Error.flow
      let builder :=
        if msg.flag &&& NLM_F_CREATE != 0 then builder.eventType .new
        else builder.eventType .update
      let flow ← builder.build.mapError Error.flow
      pure (.flow flow)
  | .delete nlas => do
      let builder ← (Engine.FlowBuilder.tryFromNlas nlas).mapError Error.flow
      let flow ← (builder.eventType .destroy).build.mapError Error.flow
      pure (.flow flow)
  | .getStats (some nlas) =>
      match nlas.findSome? (fun nla =>
        match nla with
        | .searched c => some c
        | _ => none) with
      | some c => .ok (.count c)
      | none => .error (.message "failed to get the counter")
  | .getStatsCPU (some nlas) => .ok (.stats (Stats.fromNlas msg.res_id nlas))
  | _ => .error (.message ("unknown message type: " ++
      toString msg.msg.messageType))

end Event

/-- The event predicate of `Conntrack::poll_next` (lib.rs): with a
remembered filter, only `Event::Flow`s accepted by the filter pass; with no
filter every event passes. -/
def eventKeep (filterOpt : Option Filter) (e : Event) : Bool :=
  match filterOpt with
  | some filter =>
      match e with
      | .flow f => filter.apply f
      | _ => false
  | none => true

/-- The filtering step of `Conntrack::poll_next` (lib.rs) applied to one
decoded batch. -/
def filterEvents (filterOpt : Option Filter) (events : List Event) : List Event :=
  events.filter (eventKeep filterOpt)

/-- One poll of the `Stream` implementation of `Conntrack` (lib.rs),
processing the item the underlying socket stream produced: map every
envelope through `Event::try_from` (a failure short-circuits the batch),
then filter. -/
def conntrackPollNext (filterOpt : Option Filter)
    (item : Option (Except Error (List Message))) :
    Option (Except Error (List Event)) :=
  match item with
  | some (.ok msgs) =>
      match msgs.mapM Event.tryFrom with
      | .ok events => some (.ok (filterEvents filterOpt events))
      | .error e => some (.error e)
  | some (.error e) => some (.error e)
  | none => none

/-- The `Conntrack` handle state (lib.rs): the remembered filter.  The
owned socket is an external I/O resource and is not part of the pure
state. -/
structure ConntrackState where
  filter : Option Filter
deriving DecidableEq

/-- `Conntrack::request` (lib.rs): remember the operation's filter, build
the frame, and hand back the frame to send (if the operation produced
one). -/
def ConntrackState.request (ct : ConntrackState) (req : Request) :
    Except Error (ConntrackState × Option NetlinkMessage) := do
  let ct := { ct with filter := req.filter }
  let msg ← req.message
  pure (ct, msg)

/-- `NetlinkPayload` of a received frame (netlink-packet-core): end-of-dump
sentinel, structured-error payload (signed code), inner netfilter message,
or another control payload (noop/overrun, skipped by the socket). -/
inductive NetlinkPayload where
  | done
  | error (code : Int)
  | innerMessage (msg : NetfilterMessage)
  | noop
deriving DecidableEq, Repr

/-- One parsed incoming frame: the outer header's flag word plus the
payload.  The byte-level cursor walk of `socket.rs` (deserialize, advance
by `buffer_len`) is abstracted to the resulting frame sequence; a datagram
is a `List Frame`. -/
structure Frame where
  flags : Nat
  payload : NetlinkPayload
deriving DecidableEq, Repr

deriving instance DecidableEq for Except

/-- The outcome of one `poll_next` of `NfConntrackSocket` (socket.rs) on a
readable datagram. -/
inductive PollOutput where
  | terminated
  | item (r : Except Error (List Message))
deriving DecidableEq

/-- The frame loop of `NfConntrackSocket::poll_next` (socket.rs): walk the
datagram's frames accumulating ctnetlink envelopes; an end-of-dump frame
ends the stream at once (the comment in the source: even a non-empty
accumulated batch is ignored); an error payload yields the mapped netlink
error as the item; other control payloads and non-ctnetlink subsystems are
skipped. -/
def pollNextFrames : List Frame → List Message → PollOutput
  | [], events => .item (.ok events)
  | f :: rest, events =>
      match f.payload with
      | .done => .terminated
      | .error c => .item (.error (.netlinkMessage (NetlinkError.fromCode c)))
      | .innerMessage m =>
          match m.inner with
          | .ctNetlink ct =>
              pollNextFrames rest (events ++ [Message.new ct f.flags m.res_id])
          | .otherSubsystem => pollNextFrames rest events
      | .noop => pollNextFrames rest events

/-- `NfConntrackSocket::poll_next` (socket.rs) on one received datagram. -/
def pollNextDatagram (datagram : List Frame) : PollOutput :=
  pollNextFrames datagram []

/-- The per-datagram inner loop of `NfConntrackSocket::recv` (socket.rs):
accumulate envelopes; a `Done` frame breaks out flagging the dump
complete; an error payload returns the mapped error at once. -/
def recvDatagram : List Frame → List Message → Except Error (List Message × Bool)
  | [], events => .ok (events, false)
  | f :: rest, events =>
      match f.payload with
      | .done => .ok (events, true)
      | .error c => .error (.netlinkMessage (NetlinkError.fromCode c))
      | .innerMessage m =>
          match m.inner with
          | .ctNetlink ct =>
              recvDatagram rest (events ++ [Message.new ct f.flags m.res_id])
          | .otherSubsystem => recvDatagram rest events
      | .noop => recvDatagram rest events

/-- The outcome of `NfConntrackSocket::recv` (socket.rs) on a finite
supply of datagrams: the accumulated envelopes once end-of-dump is seen,
the error if one arrives first, or still blocked on the socket when the
supply runs out without an end-of-dump frame. -/
inductive RecvOutput where
  | ok (events : List Message)
  | err (e : Error)
  | blocked
deriving DecidableEq

/-- `NfConntrackSocket::recv` (socket.rs): loop reading datagrams until an
end-of-dump frame or an error payload. -/
def recv : List (List Frame) → List Message → RecvOutput
  | [], _ => .blocked
  | d :: ds, events =>
      match recvDatagram d events with
      | .error e => .err e
      | .ok (events, true) => .ok events
      | .ok (events, false) => recv ds events

/-- `NfConntrackSocket::recv_once` (socket.rs): parse exactly one
datagram; end-of-dump mid-datagram keeps what was collected before it. -/
def recvOnce (datagram : List Frame) : Except Error (List Message) :=
  match recvDatagram datagram [] with
  | .error e => .error e
  | .ok (events, _) => .ok events

section SocketTheorems

/-- A frame the socket loops past without ending the walk: neither an
end-of-dump sentinel nor an error payload. -/
def Frame.passthrough (f : Frame) : Bool :=
  match f.payload with
  | .done => false
  | .error _ => false
  | _ => true

theorem pollNextFrames_append (pre l : List Frame) (events : List Message)
    (h : ∀ f ∈ pre, f.passthrough = true) :
    ∃ events2, pollNextFrames (pre ++ l) events = pollNextFrames l events2 := by
  induction pre generalizing events with
  | nil => exact ⟨events, rfl⟩
  | cons f fs ih =>
    have hf := h f (List.mem_cons_self f fs)
    have hfs : ∀ g ∈ fs, g.passthrough = true :=
      fun g hg => h g (List.mem_cons_of_mem f hg)
    cases hp : f.payload with
    | done => rw [Frame.passthrough, hp] at hf; cases hf
    | error c => rw [Frame.passthrough, hp] at hf; cases hf
    | innerMessage m =>
      cases hm : m.inner with
      | ctNetlink ct =>
        obtain ⟨ev2, heq⟩ := ih (events ++ [Message.new ct f.flags m.res_id]) hfs
        exact ⟨ev2, by simp only [List.cons_append, pollNextFrames, hp, hm]; exact heq⟩
      | otherSubsystem =>
        obtain ⟨ev2, heq⟩ := ih events hfs
        exact ⟨ev2, by simp only [List.cons_append, pollNextFrames, hp, hm]; exact heq⟩
    | noop =>
      obtain ⟨ev2, heq⟩ := ih events hfs
      exact ⟨ev2, by simp only [List.cons_append, pollNextFrames, hp]; exact heq⟩

/-- C1 counterexample: a datagram holding one normal ctnetlink frame and
then an end-of-dump frame makes `poll_next` end the stream at once; the
normal frame's envelope is not yielded, contradicting the claimed batch
`[envelope]`. -/
theorem c1_poll_done_counterexample :
    pollNextDatagram
      [{ flags := 0, payload := .innerMessage
           { family := 0, version := 0, res_id := 0,
             inner := .ctNetlink (.new []) } },
       { flags := 0, payload := .done }] = .terminated ∧
    pollNextDatagram
      [{ flags := 0, payload := .innerMessage
           { family := 0, version := 0, res_id := 0,
             inner := .ctNetlink (.new []) } },
       { flags := 0, payload := .done }] ≠
      .item (.ok [Message.new (.new []) 0 0]) := by
  exact ⟨rfl, by decide⟩

/-- C1 (amended): an end-of-dump frame terminates the lazy sequence
immediately; envelopes collected from earlier frames of the same datagram
are discarded, not yielded. -/
theorem c1_poll_done_terminates (g : Nat) (pre rest : List Frame)
    (events : List Message) (h : ∀ f ∈ pre, f.passthrough = true) :
    pollNextFrames (pre ++ { flags := g, payload := .done } :: rest) events =
      .terminated := by
  obtain ⟨ev2, heq⟩ := pollNextFrames_append pre
    ({ flags := g, payload := .done } :: rest) events h
  rw [heq]
  simp [pollNextFrames]

theorem c1_poll_done_terminates_witness :
    pollNextFrames
      [{ flags := 0, payload := .innerMessage
           { family := 0, version := 0, res_id := 0,
             inner := .ctNetlink (.new []) } },
       { flags := 2, payload := .done }] [] = .terminated :=
  c1_poll_done_terminates 2
    [{ flags := 0, payload := .innerMessage
         { family := 0, version := 0, res_id := 0,
           inner := .ctNetlink (.new []) } }] [] [] (by decide)

/-- C9: an error-payload frame makes the lazy sequence yield, as its next
item, the enumerated error kind mapped from the signed code
(-1 NotPermitted, -2 NoEntry, -5 IO, -17 AlreadyExists,
-22 InvalidArgument, otherwise Other(code)); the sequence is not
terminated by it. -/
theorem c9_error_item (c : Int) (g : Nat) (pre rest : List Frame)
    (events : List Message) (h : ∀ f ∈ pre, f.passthrough = true) :
    pollNextFrames (pre ++ { flags := g, payload := .error c } :: rest) events =
      .item (.error (.netlinkMessage (NetlinkError.fromCode c))) ∧
    pollNextFrames (pre ++ { flags := g, payload := .error c } :: rest) events ≠
      .terminated ∧
    NetlinkError.fromCode (-1) = .operationNotPermitted ∧
    NetlinkError.fromCode (-2) = .noEntry ∧
    NetlinkError.fromCode (-5) = .io ∧
    NetlinkError.fromCode (-17) = .alreadyExists ∧
    NetlinkError.fromCode (-22) = .invalidArgument ∧
    (c ≠ -1 → c ≠ -2 → c ≠ -5 → c ≠ -17 → c ≠ -22 →
      NetlinkError.fromCode c = .other c) := by
  obtain ⟨ev2, heq⟩ := pollNextFrames_append pre
    ({ flags := g, payload := .error c } :: rest) events h
  refine ⟨by rw [heq]; simp [pollNextFrames], by rw [heq]; simp [pollNextFrames],
    rfl, rfl, rfl, rfl, rfl, ?_⟩
  intro h1 h2 h5 h17 h22
  rw [NetlinkError.fromCode, if_neg h1, if_neg h2, if_neg h5, if_neg h17,
    if_neg h22]

theorem c9_error_item_witness :
    pollNextFrames
      [{ flags := 0, payload := .innerMessage
           { family := 0, version := 0, res_id := 0,
             inner := .ctNetlink (.new []) } },
       { flags := 0, payload := .error (-1) }] [] =
      .item (.error (.netlinkMessage (NetlinkError.fromCode (-1)))) ∧
    pollNextFrames
      [{ flags := 0, payload := .innerMessage
           { family := 0, version := 0, res_id := 0,
             inner := .ctNetlink (.new []) } },
       { flags := 0, payload := .error (-1) }] [] ≠ .terminated ∧
    NetlinkError.fromCode (-1) = .operationNotPermitted ∧
    NetlinkError.fromCode (-2) = .noEntry ∧
    NetlinkError.fromCode (-5) = .io ∧
    NetlinkError.fromCode (-17) = .alreadyExists ∧
    NetlinkError.fromCode (-22) = .invalidArgument ∧
    ((-1 : Int) ≠ -1 → (-1 : Int) ≠ -2 → (-1 : Int) ≠ -5 → (-1 : Int) ≠ -17 →
      (-1 : Int) ≠ -22 → NetlinkError.fromCode (-1) = .other (-1)) :=
  c9_error_item (-1) 0
    [{ flags := 0, payload := .innerMessage
         { family := 0, version := 0, res_id := 0,
           inner := .ctNetlink (.new []) } }] [] [] (by decide)

end SocketTheorems

section RecvTheorems

theorem recvDatagram_append (pre l : List Frame) (events : List Message)
    (h : ∀ f ∈ pre, f.passthrough = true) :
    ∃ events2, recvDatagram (pre ++ l) events = recvDatagram l events2 := by
  induction pre generalizing events with
  | nil => exact ⟨events, rfl⟩
  | cons f fs ih =>
    have hf := h f (List.mem_cons_self f fs)
    have hfs : ∀ g ∈ fs, g.passthrough = true :=
      fun g hg => h g (List.mem_cons_of_mem f hg)
    cases hp : f.payload with
    | done => rw [Frame.passthrough, hp] at hf; cases hf
    | error c => rw [Frame.passthrough, hp] at hf; cases hf
    | innerMessage m =>
      cases hm : m.inner with
      | ctNetlink ct =>
        obtain ⟨ev2, heq⟩ := ih (events ++ [Message.new ct f.flags m.res_id]) hfs
        exact ⟨ev2, by simp only [List.cons_append, recvDatagram, hp, hm]; exact heq⟩
      | otherSubsystem =>
        obtain ⟨ev2, heq⟩ := ih events hfs
        exact ⟨ev2, by simp only [List.cons_append, recvDatagram, hp, hm]; exact heq⟩
    | noop =>
      obtain ⟨ev2, heq⟩ := ih events hfs
      exact ⟨ev2, by simp only [List.cons_append, recvDatagram, hp]; exact heq⟩

theorem recv_clean_prefix (ds1 tail : List (List Frame)) (events : List Message)
    (h : ∀ d ∈ ds1, ∀ f ∈ d, f.passthrough = true) :
    ∃ events2, recv (ds1 ++ tail) events = recv tail events2 := by
  induction ds1 generalizing events with
  | nil => exact ⟨events, rfl⟩
  | cons d ds ih =>
    have hd := h d (List.mem_cons_self d ds)
    have hds : ∀ d2 ∈ ds, ∀ f ∈ d2, f.passthrough = true :=
      fun d2 hd2 => h d2 (List.mem_cons_of_mem d hd2)
    obtain ⟨ev2, heq⟩ := recvDatagram_append d [] events hd
    obtain ⟨ev3, heq3⟩ := ih ev2 hds
    refine ⟨ev3, ?_⟩
    rw [List.cons_append, recv]
    rw [List.append_nil] at heq
    rw [heq, recvDatagram]
    exact heq3

/-- C2 counterexample: a dump whose datagram carries one decoded envelope
and then an error payload makes `recv` return the error, not the
accumulated one-element vector the claim promises. -/
theorem c2_recv_error_counterexample :
    recv
      [[{ flags := 0, payload := .innerMessage
            { family := 0, version := 0, res_id := 0,
              inner := .ctNetlink (.new []) } },
        { flags := 0, payload := .error (-1) }]] [] =
      .err (.netlinkMessage .operationNotPermitted) ∧
    recv
      [[{ flags := 0, payload := .innerMessage
            { family := 0, version := 0, res_id := 0,
              inner := .ctNetlink (.new []) } },
        { flags := 0, payload := .error (-1) }]] [] ≠
      .ok [Message.new (.new []) 0 0] := by
  exact ⟨by decide, by decide⟩

/-- C2 (amended): the dump-complete receive returns the mapped error
whenever an error payload is received, regardless of how many envelopes
were accumulated from earlier frames or earlier datagrams; the accumulated
vector is returned only when an end-of-dump frame ends the loop. -/
theorem c2_recv_error_wins (c : Int) (g : Nat) (ds1 : List (List Frame))
    (pre rest : List Frame) (ds2 : List (List Frame)) (events : List Message)
    (h1 : ∀ d ∈ ds1, ∀ f ∈ d, f.passthrough = true)
    (h2 : ∀ f ∈ pre, f.passthrough = true) :
    recv (ds1 ++ (pre ++ { flags := g, payload := .error c } :: rest) :: ds2)
        events =
      .err (.netlinkMessage (NetlinkError.fromCode c)) := by
  obtain ⟨ev2, heq⟩ := recv_clean_prefix ds1
    ((pre ++ { flags := g, payload := .error c } :: rest) :: ds2) events h1
  rw [heq, recv]
  obtain ⟨ev3, heq3⟩ := recvDatagram_append pre
    ({ flags := g, payload := .error c } :: rest) ev2 h2
  rw [heq3]
  simp [recvDatagram]

theorem c2_recv_error_wins_witness :
    recv
      [[{ flags := 0, payload := .innerMessage
            { family := 0, version := 0, res_id := 0,
              inner := .ctNetlink (.new []) } }],
       [{ flags := 0, payload := .innerMessage
            { family := 0, version := 0, res_id := 0,
              inner := .ctNetlink (.new []) } },
        { flags := 0, payload := .error (-17) }]] [] =
      .err (.netlinkMessage (NetlinkError.fromCode (-17))) :=
  c2_recv_error_wins (-17) 0
    [[{ flags := 0, payload := .innerMessage
          { family := 0, version := 0, res_id := 0,
            inner := .ctNetlink (.new []) } }]]
    [{ flags := 0, payload := .innerMessage
         { family := 0, version := 0, res_id := 0,
           inner := .ctNetlink (.new []) } }] [] [] []
    (by decide) (by decide)

end RecvTheorems

section EngineTheorems

/-- C3: each batch of the request engine sequence is the event batch run
through the remembered filter: with a filter set, an `Event::Flow` is kept
iff the filter accepts it and every non-flow event is dropped; with no
filter set, the batch passes through unchanged. -/
theorem c3_poll_filtering :
    (∀ (filterOpt : Option Filter) (msgs : List Message) (events : List Event),
      msgs.mapM Event.tryFrom = .ok events →
      conntrackPollNext filterOpt (some (.ok msgs)) =
        some (.ok (filterEvents filterOpt events))) ∧
    (∀ (fl : Filter) (events : List Event) (e : Event),
      e ∈ filterEvents (some fl) events ↔
        e ∈ events ∧ ∃ f, e = .flow f ∧ fl.apply f = true) ∧
    (∀ events : List Event, filterEvents none events = events) := by
  refine ⟨?_, ?_, ?_⟩
  · intro filterOpt msgs events h
    simp only [conntrackPollNext]
    rw [h]
  · intro fl events e
    simp only [filterEvents, List.mem_filter, eventKeep]
    cases e with
    | flow f => simp
    | count c => simp
    | stats s => simp
  · intro events
    simp [filterEvents, eventKeep]

theorem c3_poll_filtering_witness :
    conntrackPollNext none (some (.ok [])) = some (.ok (filterEvents none [])) :=
  c3_poll_filtering.1 none [] [] rfl

/-- C6: a 16-bit status word whose set bits all lie on defined flag
positions survives the Status round-trip unchanged, and in general the
round-trip keeps exactly the bits on the 15 defined (low) positions,
dropping undefined bits on ingest. -/
theorem c6_status_roundtrip :
    (∀ v : Nat, v < 65536 →
      (∀ j, v.testBit j = true → ∃ f : ConnectionStatusFlag, f.pos = j) →
      Status.toU16 (Status.fromU16 v) = v) ∧
    (∀ v : Nat, v < 65536 →
      Status.toU16 (Status.fromU16 v) = v &&& 32767) := by
  constructor
  · intro v hv hbits
    rw [Status.fromU16, Status.toU16_ofBits]
    apply Nat.eq_of_testBit_eq
    intro j
    rw [Nat.testBit_and]
    cases hb : v.testBit j with
    | false => simp
    | true =>
      have hj : j < 15 := (ConnectionStatusFlag.exists_pos_eq_iff j).1 (hbits j hb)
      have hm : Nat.testBit 32767 j = true := by
        have h15 : (32767 : Nat) = 2 ^ 15 - 1 := by norm_num
        rw [h15, Nat.testBit_two_pow_sub_one]
        exact decide_eq_true hj
      rw [hm]
      rfl
  · intro v hv
    rw [Status.fromU16, Status.toU16_ofBits]

theorem c6_status_roundtrip_witness :
    Status.toU16 (Status.fromU16 32767) = 32767 ∧
    Status.toU16 (Status.fromU16 40966) = 40966 &&& 32767 := by
  constructor
  · apply c6_status_roundtrip.1 32767 (by norm_num)
    intro j hj
    have h15 : (32767 : Nat) = 2 ^ 15 - 1 := by norm_num
    rw [h15, Nat.testBit_two_pow_sub_one] at hj
    exact (ConnectionStatusFlag.exists_pos_eq_iff j).2 (of_decide_eq_true hj)
  · exact c6_status_roundtrip.2 40966 (by norm_num)

/-- C10: after `request(req)` completes, the engine's remembered filter is
exactly the one carried by the operation: List and Event install theirs,
Get, Count and Stats leave none. -/
theorem c10_request_filter :
    (∀ (ct : ConntrackState) (req : Request)
      (out : ConntrackState × Option NetlinkMessage),
      ct.request req = .ok out → out.1.filter = req.op.filter) ∧
    (∀ f, RequestOperation.filter (.list f) = f) ∧
    (∀ p, RequestOperation.filter (.get p) = none) ∧
    (∀ f, RequestOperation.filter (.event f) = f) ∧
    RequestOperation.filter .count = none ∧
    RequestOperation.filter .stat = none := by
  refine ⟨?_, fun f => rfl, fun p => rfl, fun f => rfl, rfl, rfl⟩
  intro ct req out h
  obtain ⟨meta, op⟩ := req
  cases op <;>
    · simp only [ConntrackState.request, Request.message, Request.filter,
        bind, Except.bind, pure, Except.pure, Except.ok.injEq] at h
      rw [← h]

theorem c10_request_filter_witness :
    ((⟨none⟩ : ConntrackState),
      some (({} : RequestMeta).toBuilder.count)).1.filter =
      RequestOperation.count.filter :=
  c10_request_filter.1 ⟨some {}⟩ { meta := {}, op := .count }
    (⟨none⟩, some (({} : RequestMeta).toBuilder.count)) rfl

end EngineTheorems

section FilterTheorems

namespace Filter

/-- The filter that sets the fields of both `a` and `b` (meaningful when
the two set disjoint field groups). -/
def merge (a b : Filter) : Filter where
  family := a.family <|> b.family
  protocol := a.protocol <|> b.protocol
  orig_src_addr := a.orig_src_addr <|> b.orig_src_addr
  orig_dst_addr := a.orig_dst_addr <|> b.orig_dst_addr
  reply_src_addr := a.reply_src_addr <|> b.reply_src_addr
  reply_dst_addr := a.reply_dst_addr <|> b.reply_dst_addr
  orig_src_port := a.orig_src_port <|> b.orig_src_port
  orig_dst_port := a.orig_dst_port <|> b.orig_dst_port
  reply_src_port := a.reply_src_port <|> b.reply_src_port
  reply_dst_port := a.reply_dst_port <|> b.reply_dst_port
  mark := a.mark <|> b.mark
  use := a.use <|> b.use
  tcp_state := a.tcp_state <|> b.tcp_state
  status := a.status <|> b.status

/-- Two filters set disjoint field groups: on every field at least one of
them is absent. -/
def DisjointFields (a b : Filter) : Prop :=
  (a.family = none ∨ b.family = none) ∧
  (a.protocol = none ∨ b.protocol = none) ∧
  (a.orig_src_addr = none ∨ b.orig_src_addr = none) ∧
  (a.orig_dst_addr = none ∨ b.orig_dst_addr = none) ∧
  (a.reply_src_addr = none ∨ b.reply_src_addr = none) ∧
  (a.reply_dst_addr = none ∨ b.reply_dst_addr = none) ∧
  (a.orig_src_port = none ∨ b.orig_src_port = none) ∧
  (a.orig_dst_port = none ∨ b.orig_dst_port = none) ∧
  (a.reply_src_port = none ∨ b.reply_src_port = none) ∧
  (a.reply_dst_port = none ∨ b.reply_dst_port = none) ∧
  (a.mark = none ∨ b.mark = none) ∧
  (a.use = none ∨ b.use = none) ∧
  (a.tcp_state = none ∨ b.tcp_state = none) ∧
  (a.status = none ∨ b.status = none)

instance (a b : Filter) : Decidable (DisjointFields a b) := by
  unfold DisjointFields
  infer_instance

theorem checkOpt_orElse {α : Type} (o1 o2 : Option α) (ck : α → Bool)
    (h : o1 = none ∨ o2 = none) :
    checkOpt (o1 <|> o2) ck = (checkOpt o1 ck && checkOpt o2 ck) := by
  rcases h with h | h
  · subst h
    cases o2 <;> rfl
  · subst h
    cases o1 <;> simp [checkOpt, Option.orElse]

end Filter

/-- C7: filter application is conjunctive: the empty filter accepts every
flow, and a filter setting two disjoint field groups accepts a flow iff
each group's filter accepts it on its own. -/
theorem c7_filter_conjunction :
    (∀ fl : Engine.Flow, Filter.apply {} fl = true) ∧
    (∀ (a b : Filter) (fl : Engine.Flow), Filter.DisjointFields a b →
      (a.merge b).apply fl = (a.apply fl && b.apply fl)) := by
  constructor
  · intro fl
    rfl
  · intro a b fl hd
    obtain ⟨h1, h2, h3, h4, h5, h6, h7, h8, h9, h10, h11, h12, h13, h14⟩ := hd
    unfold Filter.apply Filter.merge
    rw [Filter.checkOpt_orElse _ _ _ h1, Filter.checkOpt_orElse _ _ _ h2,
      Filter.checkOpt_orElse _ _ _ h13, Filter.checkOpt_orElse _ _ _ h3,
      Filter.checkOpt_orElse _ _ _ h4, Filter.checkOpt_orElse _ _ _ h5,
      Filter.checkOpt_orElse _ _ _ h6, Filter.checkOpt_orElse _ _ _ h7,
      Filter.checkOpt_orElse _ _ _ h8, Filter.checkOpt_orElse _ _ _ h9,
      Filter.checkOpt_orElse _ _ _ h10, Filter.checkOpt_orElse _ _ _ h11,
      Filter.checkOpt_orElse _ _ _ h12, Filter.checkOpt_orElse _ _ _ h14]
    ac_rfl

theorem c7_filter_conjunction_witness :
    Filter.apply {}
      { original := { src_addr := .v4 0x01010101, dst_addr := .v4 0x02020202,
                      src_port := 1234, dst_port := 2345 },
        reply := { src_addr := .v4 0x03030303, dst_addr := .v4 0x04040404,
                   src_port := 3456, dst_port := 4567 },
        protocol := .tcp, mark := some 1, use := some 1,
        tcp_state := some .established, status := Status.assured,
        timeout := 1000, event_type := .update } = true ∧
    Filter.apply
      (Filter.merge { protocol := some Protocol.tcp } { mark := some 1 })
      { original := { src_addr := .v4 0x01010101, dst_addr := .v4 0x02020202,
                      src_port := 1234, dst_port := 2345 },
        reply := { src_addr := .v4 0x03030303, dst_addr := .v4 0x04040404,
                   src_port := 3456, dst_port := 4567 },
        protocol := .tcp, mark := some 1, use := some 1,
        tcp_state := some .established, status := Status.assured,
        timeout := 1000, event_type := .update } =
      (Filter.apply { protocol := some Protocol.tcp }
        { original := { src_addr := .v4 0x01010101, dst_addr := .v4 0x02020202,
                        src_port := 1234, dst_port := 2345 },
          reply := { src_addr := .v4 0x03030303, dst_addr := .v4 0x04040404,
                     src_port := 3456, dst_port := 4567 },
          protocol := .tcp, mark := some 1, use := some 1,
          tcp_state := some .established, status := Status.assured,
          timeout := 1000, event_type := .update } &&
       Filter.apply { mark := some 1 }
        { original := { src_addr := .v4 0x01010101, dst_addr := .v4 0x02020202,
                        src_port := 1234, dst_port := 2345 },
          reply := { src_addr := .v4 0x03030303, dst_addr := .v4 0x04040404,
                     src_port := 3456, dst_port := 4567 },
          protocol := .tcp, mark := some 1, use := some 1,
          tcp_state := some .established, status := Status.assured,
          timeout := 1000, event_type := .update }) :=
  ⟨c7_filter_conjunction.1 _,
   c7_filter_conjunction.2 { protocol := some Protocol.tcp } { mark := some 1 }
     _ (by decide)⟩

end FilterTheorems

section EventTheorems

theorem Engine.FlowBuilder.build_event_type (b : Engine.FlowBuilder)
    (t : MessageType) (f : Engine.Flow)
    (h : (b.eventType t).build = .ok f) : f.event_type = t := by
  obtain ⟨o, r, p, m, u, ts, st, tm, et⟩ := b
  simp only [Engine.FlowBuilder.eventType] at h
  cases o <;> cases r <;> cases p <;> cases m <;> cases u <;> cases st <;>
    cases tm <;> simp_all [Engine.FlowBuilder.build]
  subst h
  rfl

/-- C8: event conversion classifies by message kind: a `New` family message
yields `Event::Flow` whose event kind is `New` when the frame's flag word
has the create bit (0x400) set and `Update` otherwise; a `Delete` family
message yields `Event::Flow` with kind `Destroy` regardless of flags. -/
theorem c8_event_classification (flag rid : Nat) (nlas : List FlowNla)
    (ev : Event) :
    (Event.tryFrom { flag := flag, res_id := rid, msg := .new nlas } = .ok ev →
      ∃ f, ev = .flow f ∧
        f.event_type =
          (if flag &&& NLM_F_CREATE != 0 then MessageType.new else .update)) ∧
    (Event.tryFrom { flag := flag, res_id := rid, msg := .delete nlas } = .ok ev →
      ∃ f, ev = .flow f ∧ f.event_type = .destroy) := by
  constructor
  · intro h
    simp only [Event.tryFrom] at h
    cases hb : Engine.FlowBuilder.tryFromNlas nlas with
    | error e =>
      rw [hb] at h
      simp [Except.mapError, Bind.bind, Except.bind] at h
    | ok b =>
      rw [hb] at h
      simp only [Except.mapError, Bind.bind, Except.bind] at h
      by_cases hc : (flag &&& NLM_F_CREATE != 0) = true
      · rw [if_pos hc] at h
        cases hbuild : (b.eventType .new).build with
        | error e =>
          rw [hbuild] at h
          simp at h
        | ok f =>
          rw [hbuild] at h
          simp only [pure, Except.pure, Except.ok.injEq] at h
          exact ⟨f, h.symm, by
            rw [if_pos hc]
            exact Engine.FlowBuilder.build_event_type b .new f hbuild⟩
      · rw [if_neg hc] at h
        cases hbuild : (b.eventType .update).build with
        | error e =>
          rw [hbuild] at h
          simp at h
        | ok f =>
          rw [hbuild] at h
          simp only [pure, Except.pure, Except.ok.injEq] at h
          exact ⟨f, h.symm, by
            rw [if_neg hc]
            exact Engine.FlowBuilder.build_event_type b .update f hbuild⟩
  · intro h
    simp only [Event.tryFrom] at h
    cases hb : Engine.FlowBuilder.tryFromNlas nlas with
    | error e =>
      rw [hb] at h
      simp [Except.mapError, Bind.bind, Except.bind] at h
    | ok b =>
      rw [hb] at h
      simp only [Except.mapError, Bind.bind, Except.bind] at h
      cases hbuild : (b.eventType .destroy).build with
      | error e =>
        rw [hbuild] at h
        simp at h
      | ok f =>
        rw [hbuild] at h
        simp only [pure, Except.pure, Except.ok.injEq] at h
        exact ⟨f, h.symm,
          Engine.FlowBuilder.build_event_type b .destroy f hbuild⟩

theorem c8_event_classification_witness :
    (∃ f,
      Event.flow
        { original := { src_addr := .v4 1, dst_addr := .v4 2,
                        src_port := 1, dst_port := 2 },
          reply := { src_addr := .v4 3, dst_addr := .v4 4,
                     src_port := 3, dst_port := 4 },
          protocol := .tcp, mark := some 0, use := some 0, tcp_state := none,
          status := Status.ofBits 4, timeout := 10,
          event_type := .update } = .flow f ∧
      f.event_type = (if (0 : Nat) &&& NLM_F_CREATE != 0 then MessageType.new
        else .update)) :=
  (c8_event_classification 0 0
    [.orig [.ip { src_addr := .v4 1, dst_addr := .v4 2 },
            .protocol { src_port := 1, dst_port := 2, protocol := 6 }],
     .reply [.ip { src_addr := .v4 3, dst_addr := .v4 4 },
             .protocol { src_port := 3, dst_port := 4, protocol := 6 }],
     .mark 0, .use 0, .timeout 10, .status ⟨4⟩]
    (.flow
      { original := { src_addr := .v4 1, dst_addr := .v4 2,
                      src_port := 1, dst_port := 2 },
        reply := { src_addr := .v4 3, dst_addr := .v4 4,
                   src_port := 3, dst_port := 4 },
        protocol := .tcp, mark := some 0, use := some 0, tcp_state := none,
        status := Status.ofBits 4, timeout := 10,
        event_type := .update })).1 (by decide)

end EventTheorems

section FlowDecodeTheorems

theorem Flow.replyFold_tcp_state (rep : List TupleNla) (tb0 : TupleBuilder)
    (fb0 : FlowBuilder) :
    ((rep.foldl Flow.replyStep (tb0, fb0)).2).tcp_state = fb0.tcp_state := by
  induction rep generalizing tb0 fb0 with
  | nil => rfl
  | cons a l ih =>
    cases a with
    | ip t =>
      rw [List.foldl_cons]
      exact ih _ _
    | protocol t =>
      rw [List.foldl_cons]
      exact ih _ _

theorem Flow.walk_tcp_state (nlas : List FlowNla) (fb fb2 : FlowBuilder)
    (h : List.foldlM Flow.walkNla fb nlas = .ok fb2) :
    fb2.tcp_state.isSome = true ↔
      (fb.tcp_state.isSome = true ∨ ∃ i, FlowNla.protocolInfo (.tcp i) ∈ nlas) := by
  induction nlas generalizing fb with
  | nil =>
    simp only [List.foldlM_nil] at h
    cases h
    simp
  | cons a l ih =>
    rw [List.foldlM_cons] at h
    cases hw : Flow.walkNla fb a with
    | error e =>
      rw [hw] at h
      simp [Bind.bind, Except.bind] at h
    | ok fb1 =>
      rw [hw] at h
      simp only [Bind.bind, Except.bind] at h
      rw [ih fb1 h]
      cases a with
      | orig o =>
        cases htb : (Flow.origTupleBuilder o).build with
        | error e =>
          simp only [Flow.walkNla, htb, Bind.bind, Except.bind] at hw
          cases hw
        | ok t =>
          simp only [Flow.walkNla, htb, Bind.bind, Except.bind, pure,
            Except.pure, Except.ok.injEq] at hw
          subst hw
          simp [FlowBuilder.setOriginal, List.mem_cons]
      | reply r =>
        cases hfold : r.foldl Flow.replyStep ({}, fb) with
        | mk tb fbP =>
          have hpres := Flow.replyFold_tcp_state r {} fb
          rw [hfold] at hpres
          cases htb : tb.build with
          | error e =>
            simp only [Flow.walkNla, hfold, htb, Bind.bind, Except.bind] at hw
            cases hw
          | ok t =>
            simp only [Flow.walkNla, hfold, htb, Bind.bind, Except.bind, pure,
              Except.pure, Except.ok.injEq] at hw
            subst hw
            have hpres2 : fbP.tcp_state = fb.tcp_state := hpres
            simp [FlowBuilder.setReply, hpres2, List.mem_cons]
      | protocolInfo info =>
        cases info with
        | tcp i =>
          cases hts : TcpState.tryFromU8 i.state with
          | error e =>
            simp only [Flow.walkNla, hts, Bind.bind, Except.bind] at hw
            cases hw
          | ok st =>
            simp only [Flow.walkNla, hts, Bind.bind, Except.bind, pure,
              Except.pure, Except.ok.injEq] at hw
            subst hw
            exact iff_of_true (Or.inl rfl)
              (Or.inr ⟨i, List.mem_cons_self _ _⟩)
        | other attr =>
          simp only [Flow.walkNla, pure, Except.pure, Except.ok.injEq] at hw
          subst hw
          simp [List.mem_cons]
      | mark v =>
        simp only [Flow.walkNla, pure, Except.pure, Except.ok.injEq] at hw
        subst hw
        simp [FlowBuilder.setMark, List.mem_cons]
      | use v =>
        simp only [Flow.walkNla, pure, Except.pure, Except.ok.injEq] at hw
        subst hw
        simp [FlowBuilder.setUse, List.mem_cons]
      | timeout t =>
        simp only [Flow.walkNla, pure, Except.pure, Except.ok.injEq] at hw
        subst hw
        simp [FlowBuilder.setTimeout, List.mem_cons]
      | status st =>
        simp only [Flow.walkNla, pure, Except.pure, Except.ok.injEq] at hw
        subst hw
        simp [FlowBuilder.setStatus, List.mem_cons]
      | id v =>
        simp only [Flow.walkNla, pure, Except.pure, Except.ok.injEq] at hw
        subst hw
        simp [List.mem_cons]
      | other attr =>
        simp only [Flow.walkNla, pure, Except.pure, Except.ok.injEq] at hw
        subst hw
        simp [List.mem_cons]

theorem FlowBuilder.build_tcp_state (b : FlowBuilder) (f : Flow)
    (h : b.build = .ok f) : f.tcp_state = b.tcp_state := by
  obtain ⟨o, r, p, m, u, ts, st, tm⟩ := b
  cases o <;> cases r <;> cases p <;> cases m <;> cases u <;> cases st <;>
    cases tm <;> simp_all [FlowBuilder.build]
  subst h
  rfl

/-- C4 counterexample: a `New` message carrying a complete flow with L4
protocol 6 (TCP) but no protocol-info attribute decodes successfully into
a flow whose protocol is TCP and whose TCP state is absent, refuting
"TCP state present iff protocol is TCP". -/
theorem c4_tcp_state_counterexample :
    Flow.tryFrom (.new
      [.orig [.ip { src_addr := .v4 1, dst_addr := .v4 2 },
              .protocol { src_port := 1, dst_port := 2, protocol := 6 }],
       .reply [.ip { src_addr := .v4 3, dst_addr := .v4 4 },
               .protocol { src_port := 3, dst_port := 4, protocol := 6 }],
       .mark 0, .use 0, .timeout 10, .status ⟨4⟩]) =
      .ok { original := { src_addr := .v4 1, dst_addr := .v4 2,
                          src_port := 1, dst_port := 2 },
            reply := { src_addr := .v4 3, dst_addr := .v4 4,
                       src_port := 3, dst_port := 4 },
            protocol := .tcp, mark := 0, use := 0, tcp_state := none,
            status := Status.ofBits 4, timeout := 10 } ∧
    ¬(((none : Option TcpState).isSome = true) ↔ Protocol.tcp = Protocol.tcp) := by
  exact ⟨by decide, by decide⟩

/-- C4 (amended): for every flow the decoder produces, the TCP state is
present iff the input message carries a TCP protocol-info attribute; its
presence is not tied to the decoded L4 protocol. -/
theorem c4_tcp_state_iff_protocol_info (nlas : List FlowNla) (flow : Flow)
    (h : Flow.tryFrom (.new nlas) = .ok flow) :
    flow.tcp_state.isSome = true ↔
      ∃ i, FlowNla.protocolInfo (.tcp i) ∈ nlas := by
  simp only [Flow.tryFrom] at h
  cases hf : List.foldlM Flow.walkNla {} nlas with
  | error e =>
    rw [hf] at h
    simp [Bind.bind, Except.bind] at h
  | ok fb =>
    rw [hf] at h
    simp only [Bind.bind, Except.bind] at h
    rw [FlowBuilder.build_tcp_state fb flow h, Flow.walk_tcp_state nlas {} fb hf]
    simp

theorem c4_tcp_state_iff_protocol_info_witness :
    (some TcpState.established).isSome = true ↔
      ∃ i, FlowNla.protocolInfo (.tcp i) ∈
        [FlowNla.orig [.ip { src_addr := .v4 1, dst_addr := .v4 2 },
                       .protocol { src_port := 1, dst_port := 2, protocol := 6 }],
         FlowNla.reply [.ip { src_addr := .v4 3, dst_addr := .v4 4 },
                        .protocol { src_port := 3, dst_port := 4, protocol := 6 }],
         FlowNla.protocolInfo (.tcp
           { state := 3, wscale_original := 0, wscale_reply := 0,
             flgas_original := 0, flags_reply := 0 }),
         FlowNla.mark 0, FlowNla.use 0, FlowNla.timeout 10,
         FlowNla.status ⟨4⟩] :=
  c4_tcp_state_iff_protocol_info
    [.orig [.ip { src_addr := .v4 1, dst_addr := .v4 2 },
            .protocol { src_port := 1, dst_port := 2, protocol := 6 }],
     .reply [.ip { src_addr := .v4 3, dst_addr := .v4 4 },
             .protocol { src_port := 3, dst_port := 4, protocol := 6 }],
     .protocolInfo (.tcp
       { state := 3, wscale_original := 0, wscale_reply := 0,
         flgas_original := 0, flags_reply := 0 }),
     .mark 0, .use 0, .timeout 10, .status ⟨4⟩]
    { original := { src_addr := .v4 1, dst_addr := .v4 2,
                    src_port := 1, dst_port := 2 },
      reply := { src_addr := .v4 3, dst_addr := .v4 4,
                 src_port := 3, dst_port := 4 },
      protocol := .tcp, mark := 0, use := 0,
      tcp_state := some .established, status := Status.ofBits 4,
      timeout := 10 }
    (by decide)

end FlowDecodeTheorems

section RoundTripTheorems

theorem Status.fromConnectionStatus_toU16 (st : Status) :
    Status.fromConnectionStatus ⟨Status.toU16 st⟩ = st :=
  Status.ofBits_toU16 st

/-- C5 counterexample: a flow whose protocol is `Other(6)` (TCP's protocol
number under the `Other` constructor) with no TCP state satisfies the
claimed hypothesis, yet decoding its serialization yields protocol `Tcp`:
the round-trip does not preserve the protocol field. -/
theorem c5_roundtrip_counterexample :
    (¬((none : Option TcpState).isSome = true) ∧
      Protocol.other 6 ≠ Protocol.tcp) ∧
    CtNetlinkMessage.tryFromFlow
      { original := { src_addr := .v4 1, dst_addr := .v4 2,
                      src_port := 1, dst_port := 2 },
        reply := { src_addr := .v4 3, dst_addr := .v4 4,
                   src_port := 3, dst_port := 4 },
        protocol := .other 6, mark := 0, use := 0, tcp_state := none,
        status := Status.ofBits 4, timeout := 10 } =
      some (.new
        [.orig [.ip { src_addr := .v4 1, dst_addr := .v4 2 },
                .protocol { src_port := 1, dst_port := 2, protocol := 6 }],
         .reply [.ip { src_addr := .v4 3, dst_addr := .v4 4 },
                 .protocol { src_port := 3, dst_port := 4, protocol := 6 }],
         .protocolInfo (.other
           { nested := none, attr_type := 0, length := 0, value := some [0] }),
         .mark 0, .use 0, .timeout 10,
         .status ⟨Status.toU16 (Status.ofBits 4)⟩, .id 0]) ∧
    Flow.tryFrom (.new
        [.orig [.ip { src_addr := .v4 1, dst_addr := .v4 2 },
                .protocol { src_port := 1, dst_port := 2, protocol := 6 }],
         .reply [.ip { src_addr := .v4 3, dst_addr := .v4 4 },
                 .protocol { src_port := 3, dst_port := 4, protocol := 6 }],
         .protocolInfo (.other
           { nested := none, attr_type := 0, length := 0, value := some [0] }),
         .mark 0, .use 0, .timeout 10,
         .status ⟨Status.toU16 (Status.ofBits 4)⟩, .id 0]) =
      .ok { original := { src_addr := .v4 1, dst_addr := .v4 2,
                          src_port := 1, dst_port := 2 },
            reply := { src_addr := .v4 3, dst_addr := .v4 4,
                       src_port := 3, dst_port := 4 },
            protocol := .tcp, mark := 0, use := 0, tcp_state := none,
            status := Status.ofBits 4, timeout := 10 } ∧
    Protocol.tcp ≠ Protocol.other 6 := by
  exact ⟨⟨by decide, by decide⟩, by decide, by decide, by decide⟩

/-- C5 (amended): for every flow satisfying the TCP-state invariant whose
protocol is not an `Other`-numbered protocol claiming TCP's or UDP's
protocol number (6 or 17), serializing through the test-only reverse
serializer and decoding yields the flow back on all fields (both tuples,
protocol, TCP state when applicable, mark, use, timeout, status), and the
id attribute is re-emitted as zero. -/
theorem c5_roundtrip (flow : Flow)
    (hiff : flow.tcp_state.isSome = true ↔ flow.protocol = .tcp)
    (h6 : flow.protocol ≠ .other 6) (h17 : flow.protocol ≠ .other 17) :
    ∃ msg, CtNetlinkMessage.tryFromFlow flow = some msg ∧
      Flow.tryFrom msg = .ok flow ∧
      ∃ nlas, msg = .new nlas ∧ FlowNla.id 0 ∈ nlas := by
  obtain ⟨orig, rep, proto, mk, us, ts, st, tmo⟩ := flow
  cases proto with
  | tcp =>
    cases ts with
    | none => simp at hiff
    | some s =>
      refine ⟨_, rfl, ?_, _, rfl, ?_⟩
      · simp [Flow.tryFrom, Flow.walkNla, Flow.origTupleBuilder, Flow.replyStep,
          TupleBuilder.srcAddr, TupleBuilder.dstAddr, TupleBuilder.srcPort,
          TupleBuilder.dstPort, TupleBuilder.build, FlowBuilder.setOriginal,
          FlowBuilder.setReply, FlowBuilder.setProtocol, FlowBuilder.setMark,
          FlowBuilder.setUse, FlowBuilder.setTcpState, FlowBuilder.setStatus,
          FlowBuilder.setTimeout, FlowBuilder.build, Bind.bind, Except.bind,
          pure, Except.pure, TcpState.tryFromU8_toU8,
          Status.fromConnectionStatus_toU16, Protocol.fromU8, Protocol.toU8,
          CtNetlinkMessage.tryFromFlow]
      · simp [CtNetlinkMessage.tryFromFlow]
  | udp =>
    cases ts with
    | some s => simp at hiff
    | none =>
      refine ⟨_, rfl, ?_, _, rfl, ?_⟩
      · simp [Flow.tryFrom, Flow.walkNla, Flow.origTupleBuilder, Flow.replyStep,
          TupleBuilder.srcAddr, TupleBuilder.dstAddr, TupleBuilder.srcPort,
          TupleBuilder.dstPort, TupleBuilder.build, FlowBuilder.setOriginal,
          FlowBuilder.setReply, FlowBuilder.setProtocol, FlowBuilder.setMark,
          FlowBuilder.setUse, FlowBuilder.setTcpState, FlowBuilder.setStatus,
          FlowBuilder.setTimeout, FlowBuilder.build, Bind.bind, Except.bind,
          pure, Except.pure, Status.fromConnectionStatus_toU16,
          Protocol.fromU8, Protocol.toU8, CtNetlinkMessage.tryFromFlow]
      · simp [CtNetlinkMessage.tryFromFlow]
  | other v =>
    have hv6 : ¬(v = 6) := fun hh => h6 (by rw [hh])
    have hv17 : ¬(v = 17) := fun hh => h17 (by rw [hh])
    cases ts with
    | some s => simp at hiff
    | none =>
      refine ⟨_, rfl, ?_, _, rfl, ?_⟩
      · simp [Flow.tryFrom, Flow.walkNla, Flow.origTupleBuilder, Flow.replyStep,
          TupleBuilder.srcAddr, TupleBuilder.dstAddr, TupleBuilder.srcPort,
          TupleBuilder.dstPort, TupleBuilder.build, FlowBuilder.setOriginal,
          FlowBuilder.setReply, FlowBuilder.setProtocol, FlowBuilder.setMark,
          FlowBuilder.setUse, FlowBuilder.setTcpState, FlowBuilder.setStatus,
          FlowBuilder.setTimeout, FlowBuilder.build, Bind.bind, Except.bind,
          pure, Except.pure, Status.fromConnectionStatus_toU16,
          Protocol.fromU8, Protocol.toU8, hv6, hv17,
          CtNetlinkMessage.tryFromFlow]
      · simp [CtNetlinkMessage.tryFromFlow]

theorem c5_roundtrip_witness :
    ∃ msg, CtNetlinkMessage.tryFromFlow
      { original := { src_addr := .v4 1, dst_addr := .v4 2,
                      src_port := 1, dst_port := 2 },
        reply := { src_addr := .v4 3, dst_addr := .v4 4,
                   src_port := 3, dst_port := 4 },
        protocol := .tcp, mark := 7, use := 1,
        tcp_state := some .established, status := Status.ofBits 6,
        timeout := 100 } = some msg ∧
      Flow.tryFrom msg = .ok
        { original := { src_addr := .v4 1, dst_addr := .v4 2,
                        src_port := 1, dst_port := 2 },
          reply := { src_addr := .v4 3, dst_addr := .v4 4,
                     src_port := 3, dst_port := 4 },
          protocol := .tcp, mark := 7, use := 1,
          tcp_state := some .established, status := Status.ofBits 6,
          timeout := 100 } ∧
      ∃ nlas, msg = .new nlas ∧ FlowNla.id 0 ∈ nlas :=
  c5_roundtrip
    { original := { src_addr := .v4 1, dst_addr := .v4 2,
                    src_port := 1, dst_port := 2 },
      reply := { src_addr := .v4 3, dst_addr := .v4 4,
                 src_port := 3, dst_port := 4 },
      protocol := .tcp, mark := 7, use := 1,
      tcp_state := some .established, status := Status.ofBits 6,
      timeout := 100 }
    (by decide) (by decide) (by decide)

end RoundTripTheorems

end Conntrack
